import Mathlib

/-!
Shallow embedding of the container lifecycle core (src/containers.go).

Each Go function is translated into a pure Lean function.  Outcomes of the
external engine calls (the docker client methods) are passed in as explicit
parameters: an `Except String A` or `Option String` stands for the Go
`(value, error)` pair returned by the engine, with the `String` carrying the
engine's error message.  Side effects that the claims talk about (closing the
response body, attempting a removal) are made observable as counters in the
result structures.
-/

namespace Containers

/-! ## Build pipeline (BuildImage, src/containers.go lines 60-89) -/

/-- Progress detail of a streamed build-log record (`ProgressDetail` in
containers.go; Go `int` modelled as `Int`). -/
structure ProgressDetail where
  current : Int
  total : Int
deriving DecidableEq

/-- One decoded streamed build-log record (`ImageBuildOut` in containers.go). -/
structure ImageBuildOut where
  stream : String
  status : String
  id : String
  progress : String
  progressDetail : ProgressDetail
deriving DecidableEq

/-- One item of the response-body stream, as seen by one iteration of the
drain loop in `BuildImage`.  A `record r isError` is a JSON object that
decodes into `ImageBuildOut` without error; `isError` records whether the
underlying JSON object carries an error field — `encoding/json` silently
discards unknown fields, and `ImageBuildOut` declares no error field, so this
flag is invisible to the Go code.  A `malformed` item is a chunk of the body
on which `Decode` returns a non-EOF error; in both cases the decoder consumes
the item and the loop continues.  An exhausted stream makes `Decode` return
`io.EOF`. -/
inductive BuildLogItem where
  | record (r : ImageBuildOut) (isError : Bool)
  | malformed
deriving DecidableEq

/-- The drain loop of `BuildImage` (lines 80-87): repeatedly decode one item;
on `io.EOF` close the body and break out, otherwise keep looping.  Returns
(number of `image.Body.Close()` calls, error returned by the loop's
function). -/
def drain : List BuildLogItem → Nat × Option String
  | [] => (1, none)
  | _ :: rest => drain rest

/-- The same drain loop with an explicit iteration budget: `none` means the
budget was exhausted before the loop exited.  Used to state that the loop
terminates within `body.length + 1` iterations. -/
def drainFuel : Nat → List BuildLogItem → Option (Nat × Option String)
  | 0, _ => none
  | _ + 1, [] => some (1, none)
  | fuel + 1, _ :: rest => drainFuel fuel rest

/-- Result of a `BuildImage` call: the returned error (`none` = Go `nil`) and
the number of `image.Body.Close()` calls (`none` when the build request was
never submitted successfully, so no body ever existed). -/
structure BuildResult where
  ret : Option String
  bodyCloses : Option Nat
deriving DecidableEq

/-- `BuildImage` (lines 60-89).  `tarErr` is the outcome of
`archive.Tar path archive.Uncompressed`, `submitErr` the outcome of
`DockerClient.ImageBuild`, and `body` the streamed response body. -/
def BuildImage (imageName : String) (tarErr : Option String)
    (submitErr : Option String) (body : List BuildLogItem) : BuildResult :=
  match tarErr with
  | some e =>
      ⟨some ("[ERR:] [DOCKER] => FAILED TO CREATE BUILD CONTEXT FOR IMAGE "
        ++ imageName ++ " => " ++ e), none⟩
  | none =>
    match submitErr with
    | some e =>
        ⟨some ("[ERR:] [DOCKER] => FAILED TO BUILD IMAGE " ++ imageName
          ++ " => " ++ e), none⟩
    | none => ⟨(drain body).2, some (drain body).1⟩

lemma drain_eq (body : List BuildLogItem) : drain body = (1, none) := by
  induction body with
  | nil => rfl
  | cons i rest ih => exact ih

lemma buildImage_ok (imageName : String) (body : List BuildLogItem) :
    BuildImage imageName none none body = ⟨none, some 1⟩ := by
  show (⟨(drain body).2, some (drain body).1⟩ : BuildResult) = ⟨none, some 1⟩
  rw [drain_eq]

/-- Claim C1 (counterexample): a stream that contains an explicit error
record before end-of-stream does NOT make `BuildImage` return a failure: the
drain loop ignores record contents entirely, so the build reports success
(`nil`). -/
theorem buildImage_ignores_error_record :
    (BuildImage "img" none none
      [BuildLogItem.record ⟨"", "", "", "", ⟨0, 0⟩⟩ true]).ret = none := rfl

/-- Claim C1 (amended): for every build whose submission succeeds,
`BuildImage` returns `nil` exactly when end-of-stream is reached — which, on
a finite stream, always happens — regardless of any error record in the
stream; a failed context creation or submission is the only source of a
returned error. -/
theorem buildImage_success_at_eof :
    (∀ (name : String) (body : List BuildLogItem),
      (BuildImage name none none body).ret = none)
    ∧ (∀ (name e : String) (subE : Option String) (body : List BuildLogItem),
      (BuildImage name (some e) subE body).ret
        = some ("[ERR:] [DOCKER] => FAILED TO CREATE BUILD CONTEXT FOR IMAGE "
            ++ name ++ " => " ++ e))
    ∧ (∀ (name e : String) (body : List BuildLogItem),
      (BuildImage name none (some e) body).ret
        = some ("[ERR:] [DOCKER] => FAILED TO BUILD IMAGE " ++ name
            ++ " => " ++ e)) := by
  refine ⟨fun name body => ?_, fun name e subE body => rfl, fun name e body => rfl⟩
  rw [buildImage_ok]

/-- Claim C2: on every exit path of `BuildImage` after the build request has
been submitted — including streams with undecodable records — the response
body is closed exactly once. -/
theorem buildImage_closes_body_once (name : String) (body : List BuildLogItem) :
    (BuildImage name none none body).bodyCloses = some 1 := by
  rw [buildImage_ok]

/-- Claim C9: the log-drain loop of `BuildImage` terminates on every finite
response stream, within `body.length + 1` iterations; in particular an item
whose decode yields a non-EOF error (`malformed`) is consumed and the loop
advances to the rest of the stream. -/
theorem buildImage_drain_terminates :
    (∀ body : List BuildLogItem,
      drainFuel (body.length + 1) body = some (drain body))
    ∧ (∀ (fuel : Nat) (rest : List BuildLogItem),
      drainFuel (fuel + 1) (BuildLogItem.malformed :: rest)
        = drainFuel fuel rest) := by
  refine ⟨fun body => ?_, fun fuel rest => rfl⟩
  induction body with
  | nil => rfl
  | cons i rest ih => simpa [drainFuel, drain] using ih

/-! ## Container lifecycle (Create/Start/Stop/Purge, lines 91-139) -/

/-- An engine-typed payload (`container.Config`, `container.HostConfig`,
`network.NetworkingConfig`, `v1.Platform`): the core only forwards these to
the engine and never looks inside, so they are modelled as an abstract
single-constructor type. -/
structure EnginePayload where
  mk ::
deriving DecidableEq

/-- `ContainerCreateConfig` (containers.go): the unifying creation config.
The four engine-typed fields are Go pointers, hence `Option`. -/
structure ContainerCreateConfig where
  Name : String
  Config : Option EnginePayload
  HostConfig : Option EnginePayload
  NetworkingConfig : Option EnginePayload
  Platform : Option EnginePayload
deriving DecidableEq

/-- `container.CreateResponse` as used by the core: the created container's
identity plus engine warnings. -/
structure CreateResponse where
  ID : String
  Warnings : List String
deriving DecidableEq

/-- `CreateContainer` (lines 91-105).  `createRes` is the outcome of
`DockerClient.ContainerCreate` on `config`. -/
def CreateContainer (config : ContainerCreateConfig)
    (createRes : Except String CreateResponse) :
    Except String CreateResponse :=
  match createRes with
  | .error e =>
      .error ("[ERR:] [DOCKER] => FAILED TO CREATE CONTAINER " ++ config.Name
        ++ " => " ++ e)
  | .ok r => .ok r

/-- `StartContainer` (lines 107-114).  `startErr` is the outcome of
`DockerClient.ContainerStart` on `cont.ID`. -/
def StartContainer (cont : CreateResponse) (startErr : Option String) :
    Option String :=
  match startErr with
  | some e =>
      some ("[ERR:] [DOCKER] => FAILED TO START CONTAINER WITH ID: "
        ++ cont.ID ++ " => " ++ e)
  | none => none

/-- `StopContainer` (lines 116-125).  `stopErr` is the outcome of
`DockerClient.ContainerStop` with `StopOptions{Signal: "SIGTERM"}`. -/
def StopContainer (containerID : String) (stopErr : Option String) :
    Option String :=
  match stopErr with
  | some e =>
      some ("[ERR:] [DOCKER] => FAILED TO STOP CONTAINER WITH ID: "
        ++ containerID ++ " => " ++ e)
  | none => none

/-- `container.RemoveOptions` as constructed by `PurgeContainer`. -/
structure RemoveOptions where
  RemoveVolumes : Bool
  RemoveLinks : Bool
  Force : Bool
deriving DecidableEq

/-- The literal `removeOptions` built in `PurgeContainer` (lines 129-133). -/
def purgeRemoveOptions : RemoveOptions :=
  { RemoveVolumes := true, RemoveLinks := false, Force := true }

/-- `PurgeContainer` (lines 127-139).  `containerRemove` is the engine's
`ContainerRemove` call, as a function of the options the core passes to
it. -/
def PurgeContainer (containerID : String)
    (containerRemove : RemoveOptions → Option String) : Option String :=
  match containerRemove purgeRemoveOptions with
  | some e =>
      some ("[ERR:] [DOCKER] => FAILED TO PURGE CONTAINER WITH ID: "
        ++ containerID ++ " => " ++ e)
  | none => none

/-- Modelled from the spec: the engine-side semantics of container removal
(the `ContainerRemove` capability of the external RuntimeClient, not part of
src/).  Per the spec, forced removal "bypasses the graceful path" and
succeeds even on a container that was never stopped, while a non-forced
removal of a running container is rejected. -/
def engineContainerRemove (running : Bool) (opts : RemoveOptions) :
    Option String :=
  if running && !opts.Force then
    some "cannot remove a running container: stop the container before removing"
  else none

/-- Claim C8: `PurgeContainer` issues removal with force enabled and
anonymous-volume removal enabled while link removal stays disabled, and
against the spec-modelled engine it succeeds whatever the container's run
state, in particular when it was never stopped. -/
theorem purgeContainer_forced_options :
    purgeRemoveOptions.Force = true
    ∧ purgeRemoveOptions.RemoveVolumes = true
    ∧ purgeRemoveOptions.RemoveLinks = false
    ∧ ∀ (containerID : String) (running : Bool),
        PurgeContainer containerID (engineContainerRemove running) = none := by
  refine ⟨rfl, rfl, rfl, fun containerID running => ?_⟩
  cases running <;> rfl

/-! ## Image GC (DeleteImage / PruneDanglingImages, lines 141-172) -/

/-- Result of a `DeleteImage` call: the `(bool, error)` pair returned by the
Go function, plus the number of `ImageRemove` calls issued, so that "no
removal attempted" is observable. -/
structure DeleteImageResult where
  existed : Bool
  err : Option String
  removeCalls : Nat
deriving DecidableEq

/-- `DeleteImage` (lines 141-159).  `inspectRes` is the outcome of
`ImageInspectWithRaw` (`ok` carries the inspected image's ID); `removeErr`
the outcome `ImageRemove` would report with
`RemoveOptions{Force: true, PruneChildren: true}`. -/
def DeleteImage (imageName : String) (inspectRes : Except String String)
    (removeErr : Option String) : DeleteImageResult :=
  match inspectRes with
  | .error _ => ⟨false, none, 0⟩
  | .ok _ =>
    match removeErr with
    | some e =>
        ⟨true, some ("[ERR:] [DOCKER] => FAILED TO DELETE IMAGE: " ++ imageName
          ++ " | => " ++ e), 1⟩
    | none => ⟨true, none, 1⟩

/-- Claim C3: a failed existence inspection yields `(false, nil)` with no
removal attempted; an existing image removed successfully yields
`(true, nil)`; a failed removal of an existing image yields `(true, err)` —
the existence flag stays `true` even when removal fails. -/
theorem deleteImage_contract :
    ∀ (name msg imgID e : String) (removeErr : Option String),
      DeleteImage name (Except.error msg) removeErr = ⟨false, none, 0⟩
      ∧ DeleteImage name (Except.ok imgID) none = ⟨true, none, 1⟩
      ∧ (DeleteImage name (Except.ok imgID) (some e)).existed = true
      ∧ (DeleteImage name (Except.ok imgID) (some e)).err
          = some ("[ERR:] [DOCKER] => FAILED TO DELETE IMAGE: " ++ name
              ++ " | => " ++ e) :=
  fun name msg imgID e removeErr => ⟨rfl, rfl, rfl, rfl⟩

/-- `image.PruneReport` as consumed by the core. -/
structure PruneReport where
  ImagesDeleted : List String
  SpaceReclaimed : Nat
deriving DecidableEq

/-- The prune filter built in `PruneDanglingImages` (lines 163-164). -/
def pruneFilters : List (String × String) := [("dangling", "true")]

/-- `PruneDanglingImages` (lines 161-172).  `pruneRes` is the outcome of
`ImagesPrune` under `pruneFilters`. -/
def PruneDanglingImages (pruneRes : Except String PruneReport) :
    Except String PruneReport :=
  match pruneRes with
  | .error e =>
      .error ("[ERR:] [DOCKER] => FAILED TO PRUNE DANGLING IMAGES  | => " ++ e)
  | .ok r => .ok r

/-! ## Health monitor (GetContainerHealthStatus, lines 174-183) -/

/-- The `Health` record of an inspected container state. -/
structure Health where
  Status : String
deriving DecidableEq

/-- The `State` record of an inspected container; `Health` is a Go pointer,
`nil` when the container has no healthcheck configured. -/
structure ContainerState where
  Health : Option Health
deriving DecidableEq

/-- The `ContainerJSON` returned by `ContainerInspect`; `State` is a Go
pointer. -/
structure ContainerJSON where
  State : Option ContainerState
deriving DecidableEq

/-- `GetContainerHealthStatus` (lines 174-183).  The Go body evaluates
`containerJSON.State.Health.Status`; dereferencing a `nil` `State` or `nil`
`Health` pointer panics, modelled as the `none` result.  A `some` result is
the `(string, error)` pair the function returns. -/
def GetContainerHealthStatus (containerID : String)
    (inspectRes : Except String ContainerJSON) :
    Option (String × Option String) :=
  match inspectRes with
  | .error e => some ("unhealthy", some e)
  | .ok cj =>
    match cj.State with
    | none => none
    | some st =>
      match st.Health with
      | none => none
      | some h => some (h.Status, none)

/-- Claim C6: when the underlying inspection fails, `GetContainerHealthStatus`
returns the status string "unhealthy" together with the inspection error,
both populated. -/
theorem health_probe_failure_reports_unhealthy :
    ∀ (containerID e : String),
      GetContainerHealthStatus containerID (Except.error e)
        = some ("unhealthy", some e) :=
  fun containerID e => rfl

/-- Claim C10 (code bug, evaluation at the failing input): when inspection
succeeds but the container has no healthcheck configured (`State.Health` is
`nil`), the Go expression `containerJSON.State.Health.Status` dereferences a
nil pointer and panics instead of returning a value. -/
theorem healthStatus_nil_health_panics :
    GetContainerHealthStatus "c0" (Except.ok ⟨some ⟨none⟩⟩) = none := rfl

/-! ## Exec stream demultiplexing (stdcopy.StdCopy as called on line 209)

Modelled from the spec: `stdcopy.StdCopy` lives in the external
`github.com/docker/docker/pkg/stdcopy` package, not under src/.  The spec
describes the consumed exec-stream format — multiplexed frames of a 1-byte
origin tag (stdout or stderr), a 4-byte big-endian length and that many
payload bytes — and requires the demultiplexer to loop until the stream is
exhausted, reassembling frames that arrive split across multiple underlying
reads and writing payload bytes into an origin-specific buffer.  Bytes are
`Nat`s below 256; tag 1 is stdout, tag 2 is stderr, matching the wire
values. -/

/-- One multiplexed frame before transport: an origin tag and its payload. -/
structure Frame where
  tag : Nat
  payload : List Nat
deriving DecidableEq

/-- 4-byte big-endian encoding of a payload length. -/
def be4 (n : Nat) : List Nat :=
  [n / 2 ^ 24 % 256, n / 2 ^ 16 % 256, n / 2 ^ 8 % 256, n % 256]

/-- Big-endian decoding of the 4 length bytes of a frame header. -/
def decodeBE4 (b3 b2 b1 b0 : Nat) : Nat :=
  b3 * 2 ^ 24 + b2 * 2 ^ 16 + b1 * 2 ^ 8 + b0

/-- Wire form of one frame: tag byte, 4 length bytes, payload. -/
def serializeFrame (f : Frame) : List Nat :=
  f.tag :: (be4 f.payload.length ++ f.payload)

/-- Wire form of a frame sequence. -/
def serialize (fs : List Frame) : List Nat :=
  (fs.map serializeFrame).join

/-- Split one complete frame off the front of the receive buffer, if the
buffer holds a full header and payload; `none` when more bytes are needed. -/
def frameSplit : List Nat → Option ((Nat × List Nat) × List Nat)
  | tag :: b3 :: b2 :: b1 :: b0 :: rest =>
      if decodeBE4 b3 b2 b1 b0 ≤ rest.length then
        some ((tag, rest.take (decodeBE4 b3 b2 b1 b0)),
          rest.drop (decodeBE4 b3 b2 b1 b0))
      else none
  | _ => none

/-- State of the demultiplexer: bytes received but not yet consumed as a
complete frame, and the origin-specific stdout/stderr buffers. -/
structure DemuxState where
  buf : List Nat
  out : List Nat
  err : List Nat
deriving DecidableEq

/-- Consume complete frames from the front of the buffer while any is
available, routing each payload into the buffer selected by its tag.  The
fuel argument only bounds the recursion; `buf.length` is always enough since
every frame consumes at least its 5 header bytes. -/
def consumeAux : Nat → DemuxState → DemuxState
  | 0, st => st
  | fuel + 1, st =>
    match frameSplit st.buf with
    | none => st
    | some ((t, p), r) =>
        consumeAux fuel
          ⟨r, if t = 1 then st.out ++ p else st.out,
            if t = 2 then st.err ++ p else st.err⟩

/-- Consume every complete frame currently in the buffer. -/
def consume (st : DemuxState) : DemuxState :=
  consumeAux st.buf.length st

/-- Receive one underlying read: append its bytes to the buffer, then consume
every frame that is now complete. -/
def feed (st : DemuxState) (chunk : List Nat) : DemuxState :=
  consume ⟨st.buf ++ chunk, st.out, st.err⟩

/-- Run the demultiplexer over the whole sequence of underlying reads. -/
def runReads (chunks : List (List Nat)) : DemuxState :=
  chunks.foldl feed ⟨[], [], []⟩

/-- Concatenation of the payloads of the stdout-tagged frames. -/
def stdoutPayloads (fs : List Frame) : List Nat :=
  ((fs.filter fun f => f.tag == 1).map Frame.payload).join

/-- Concatenation of the payloads of the stderr-tagged frames. -/
def stderrPayloads (fs : List Frame) : List Nat :=
  ((fs.filter fun f => f.tag == 2).map Frame.payload).join

lemma decodeBE4_be4 (n : Nat) (h : n < 2 ^ 32) :
    decodeBE4 (n / 2 ^ 24 % 256) (n / 2 ^ 16 % 256) (n / 2 ^ 8 % 256)
      (n % 256) = n := by
  simp only [decodeBE4]
  omega

lemma frameSplit_serializeFrame (f : Frame) (rest : List Nat)
    (h : f.payload.length < 2 ^ 32) :
    frameSplit (serializeFrame f ++ rest)
      = some ((f.tag, f.payload), rest) := by
  have hbe := decodeBE4_be4 f.payload.length h
  simp only [serializeFrame, be4, List.cons_append, List.append_assoc,
    List.nil_append, frameSplit, hbe]
  rw [if_pos (by simp)]
  rw [List.take_left, List.drop_left]

lemma frameSplit_length {b : List Nat} {t : Nat} {p r : List Nat}
    (h : frameSplit b = some ((t, p), r)) : r.length + 5 ≤ b.length := by
  rcases b with _ | ⟨tag, b⟩
  · exact absurd h (by simp [frameSplit])
  rcases b with _ | ⟨b3, b⟩
  · exact absurd h (by simp [frameSplit])
  rcases b with _ | ⟨b2, b⟩
  · exact absurd h (by simp [frameSplit])
  rcases b with _ | ⟨b1, b⟩
  · exact absurd h (by simp [frameSplit])
  rcases b with _ | ⟨b0, rest⟩
  · exact absurd h (by simp [frameSplit])
  simp only [frameSplit] at h
  split at h
  case isTrue hle =>
    simp only [Option.some.injEq, Prod.mk.injEq] at h
    obtain ⟨⟨ht, hp⟩, hr⟩ := h
    subst hr
    simp only [List.length_drop, List.length_cons]
    omega
  case isFalse => exact absurd h (by simp)

lemma frameSplit_append {b : List Nat} {t : Nat} {p r : List Nat}
    (c : List Nat) (h : frameSplit b = some ((t, p), r)) :
    frameSplit (b ++ c) = some ((t, p), r ++ c) := by
  rcases b with _ | ⟨tag, b⟩
  · exact absurd h (by simp [frameSplit])
  rcases b with _ | ⟨b3, b⟩
  · exact absurd h (by simp [frameSplit])
  rcases b with _ | ⟨b2, b⟩
  · exact absurd h (by simp [frameSplit])
  rcases b with _ | ⟨b1, b⟩
  · exact absurd h (by simp [frameSplit])
  rcases b with _ | ⟨b0, rest⟩
  · exact absurd h (by simp [frameSplit])
  simp only [frameSplit] at h
  split at h
  case isTrue hle =>
    simp only [Option.some.injEq, Prod.mk.injEq] at h
    obtain ⟨⟨ht, hp⟩, hr⟩ := h
    subst ht; subst hp; subst hr
    simp only [List.cons_append, frameSplit]
    rw [if_pos (by simp only [List.length_append]; omega)]
    rw [List.take_append_of_le_length hle, List.drop_append_of_le_length hle]
  case isFalse => exact absurd h (by simp)

lemma consume_of_frameSplit_none (st : DemuxState)
    (h : frameSplit st.buf = none) : consume st = st := by
  unfold consume
  cases hb : st.buf.length with
  | zero => rfl
  | succ n => simp [consumeAux, h]

lemma consumeAux_congr :
    ∀ (f1 f2 : Nat) (st : DemuxState), st.buf.length ≤ f1 →
      st.buf.length ≤ f2 → consumeAux f1 st = consumeAux f2 st := by
  intro f1
  induction f1 with
  | zero =>
    intro f2 st h1 _
    have hb : st.buf = [] := List.length_eq_zero.mp (Nat.le_zero.mp h1)
    cases f2 with
    | zero => rfl
    | succ m => simp [consumeAux, hb, frameSplit]
  | succ k ih =>
    intro f2 st h1 h2
    cases f2 with
    | zero =>
      have hb : st.buf = [] := List.length_eq_zero.mp (Nat.le_zero.mp h2)
      simp [consumeAux, hb, frameSplit]
    | succ m =>
      simp only [consumeAux]
      cases hfs : frameSplit st.buf with
      | none => rfl
      | some v =>
        obtain ⟨⟨t, p⟩, r⟩ := v
        have hlen := frameSplit_length hfs
        exact ih m ⟨r, _, _⟩ (by simp; omega) (by simp; omega)

lemma consume_step (st : DemuxState) {t : Nat} {p r : List Nat}
    (h : frameSplit st.buf = some ((t, p), r)) :
    consume st = consume ⟨r, if t = 1 then st.out ++ p else st.out,
      if t = 2 then st.err ++ p else st.err⟩ := by
  have hlen := frameSplit_length h
  unfold consume
  obtain ⟨n, hn⟩ : ∃ n, st.buf.length = n + 1 := ⟨st.buf.length - 1, by omega⟩
  rw [hn]
  simp only [consumeAux, h]
  exact consumeAux_congr n _ ⟨r, _, _⟩ (by simp; omega) (le_refl _)

lemma consume_append_aux :
    ∀ (n : Nat) (b o e c : List Nat), b.length ≤ n →
      consume ⟨b ++ c, o, e⟩ = feed (consume ⟨b, o, e⟩) c := by
  intro n
  induction n with
  | zero =>
    intro b o e c h
    have hb : b = [] := List.length_eq_zero.mp (Nat.le_zero.mp h)
    subst hb
    have h0 : consume ⟨[], o, e⟩ = ⟨[], o, e⟩ := rfl
    rw [h0]
    simp [feed]
  | succ k ih =>
    intro b o e c hb
    cases hfs : frameSplit b with
    | none =>
      rw [consume_of_frameSplit_none ⟨b, o, e⟩ hfs]
      simp [feed]
    | some v =>
      obtain ⟨⟨t, p⟩, r⟩ := v
      have h2 := frameSplit_append c hfs
      rw [consume_step ⟨b ++ c, o, e⟩ h2, consume_step ⟨b, o, e⟩ hfs]
      have hlen := frameSplit_length hfs
      exact ih r _ _ c (by omega)

lemma consume_append (b o e c : List Nat) :
    consume ⟨b ++ c, o, e⟩ = feed (consume ⟨b, o, e⟩) c :=
  consume_append_aux b.length b o e c (le_refl _)

lemma foldl_feed_consume :
    ∀ (chunks : List (List Nat)) (b o e : List Nat),
      chunks.foldl feed (consume ⟨b, o, e⟩)
        = consume ⟨b ++ chunks.join, o, e⟩ := by
  intro chunks
  induction chunks with
  | nil => intro b o e; simp [List.join]
  | cons ch cs ih =>
    intro b o e
    simp only [List.foldl_cons]
    rw [← consume_append b o e ch, ih (b ++ ch) o e]
    simp [List.join, List.append_assoc]

lemma runReads_eq_consume (chunks : List (List Nat)) :
    runReads chunks = consume ⟨chunks.join, [], []⟩ := by
  have h0 : (⟨[], [], []⟩ : DemuxState) = consume ⟨[], [], []⟩ := rfl
  rw [runReads, h0, foldl_feed_consume]
  simp

lemma consume_serialize :
    ∀ (fs : List Frame) (o e : List Nat),
      (∀ f ∈ fs, f.tag = 1 ∨ f.tag = 2) →
      (∀ f ∈ fs, f.payload.length < 2 ^ 32) →
      consume ⟨serialize fs, o, e⟩
        = ⟨[], o ++ stdoutPayloads fs, e ++ stderrPayloads fs⟩ := by
  intro fs
  induction fs with
  | nil =>
    intro o e _ _
    simp [serialize, stdoutPayloads, stderrPayloads, List.join]
    rfl
  | cons f fs ih =>
    intro o e htag hlen
    have hser : serialize (f :: fs) = serializeFrame f ++ serialize fs := by
      simp [serialize, List.join]
    have hf : frameSplit (serializeFrame f ++ serialize fs)
        = some ((f.tag, f.payload), serialize fs) :=
      frameSplit_serializeFrame f (serialize fs) (hlen f (by simp))
    rw [hser, consume_step ⟨serializeFrame f ++ serialize fs, o, e⟩ hf,
      ih _ _ (fun g hg => htag g (by simp [hg]))
        (fun g hg => hlen g (by simp [hg]))]
    rcases htag f (by simp) with h1 | h2
    · simp [h1, stdoutPayloads, stderrPayloads, List.filter, List.join,
        List.append_assoc]
    · simp [h2, stdoutPayloads, stderrPayloads, List.filter, List.join,
        List.append_assoc]

/-- Claim C7: for every sequence of multiplexed frames and every way of
fragmenting its wire form into underlying reads, the demultiplexer
reconstructs stdout and stderr buffers byte-identical to the concatenations
of the stdout-tagged and stderr-tagged payloads, with an empty leftover
buffer. -/
theorem exec_demux_reconstructs (fs : List Frame) (chunks : List (List Nat))
    (htag : ∀ f ∈ fs, f.tag = 1 ∨ f.tag = 2)
    (hlen : ∀ f ∈ fs, f.payload.length < 2 ^ 32)
    (hfrag : chunks.join = serialize fs) :
    runReads chunks = ⟨[], stdoutPayloads fs, stderrPayloads fs⟩ := by
  rw [runReads_eq_consume, hfrag, consume_serialize fs [] [] htag hlen]
  simp

/-- Witness for C7 at a concrete fragmentation that splits both the first
frame's header and its payload across reads. -/
theorem exec_demux_reconstructs_witness :
    runReads [[1, 0, 0], [0, 2, 10], [11, 2, 0, 0, 0], [1, 20, 1, 0, 0, 0, 1, 12]]
      = ⟨[], stdoutPayloads [⟨1, [10, 11]⟩, ⟨2, [20]⟩, ⟨1, [12]⟩],
          stderrPayloads [⟨1, [10, 11]⟩, ⟨2, [20]⟩, ⟨1, [12]⟩]⟩ :=
  exec_demux_reconstructs [⟨1, [10, 11]⟩, ⟨2, [20]⟩, ⟨1, [12]⟩]
    [[1, 0, 0], [0, 2, 10], [11, 2, 0, 0, 0], [1, 20, 1, 0, 0, 0, 1, 12]]
    (by decide) (by decide) (by decide)

/-! ## Exec runner (Exec, lines 185-226) -/

/-- Decode a captured byte buffer as text, as `outBuf.String()` /
`errBuf.String()` do. -/
def byteListToString (bs : List Nat) : String :=
  String.mk (bs.map Char.ofNat)

/-- The error message built on line 221 for a nonzero exit code: it embeds
`fmt.Sprint` of the exit code and the accumulated stderr text (the typo
ISNTANCE elsewhere and EXITIED here are the source's own). -/
def execErrMsg (exitCode : Int) (stderr : String) : String :=
  "[ERR:] [DOCKER] => COMMAND EXITIED WITH CODE " ++ toString exitCode
    ++ " => " ++ stderr

/-- Result of an `Exec` call: the `(string, error)` pair (as an `Except`) and
the number of times the deferred `resp.Close()` ran (0 until the attach
succeeds, 1 on every later exit path). -/
structure ExecOutcome where
  ret : Except String String
  attachCloses : Nat

/-- `Exec` (lines 185-226).  `createRes` is the outcome of
`ContainerExecCreate` (`ok` carries the exec instance ID), `attachRes` the
outcome of `ContainerExecAttach` (`ok` carries the sequence of underlying
reads of the multiplexed stream), `copyErr` the error `stdcopy.StdCopy`
reports (read or protocol failure), and `inspectRes` the outcome of
`ContainerExecInspect` (`ok` carries the exit code, a Go `int`). -/
def Exec (containerID : String) (cmd : List String)
    (createRes : Except String String)
    (attachRes : Except String (List (List Nat)))
    (copyErr : Option String) (inspectRes : Except String Int) : ExecOutcome :=
  match createRes with
  | .error e =>
      ⟨.error ("[ERR:] [DOCKER] => FAILED TO CREATE EXEC ISNTANCE => " ++ e), 0⟩
  | .ok _ =>
    match attachRes with
    | .error e =>
        ⟨.error ("[ERR:] [DOCKER] => FAILED TO ATTACH TO EXEC INSTANCE => "
          ++ e), 0⟩
    | .ok chunks =>
      match copyErr with
      | some e =>
          ⟨.error ("[ERR:] [DOCKER] => FAILED TO COPY EXEC OUTPUT => " ++ e), 1⟩
      | none =>
        let st := runReads chunks
        match inspectRes with
        | .error e =>
            ⟨.error ("[ERR:] [DOCKER] => FAILED TO INSPECT EXEC INSTANCE => "
              ++ e), 1⟩
        | .ok exitCode =>
          if exitCode ≠ 0 then
            ⟨.error (execErrMsg exitCode (byteListToString st.err)), 1⟩
          else
            ⟨.ok (byteListToString st.out), 1⟩

/-- Claim C4: when `Exec` reaches the final inspection, exit code 0 yields
the accumulated stdout text and no error, while a nonzero exit code yields an
error embedding exactly that exit code and the accumulated stderr text — the
whole returned value is that error message, so stdout is no part of it. -/
theorem exec_exit_code_contract (containerID : String) (cmd : List String)
    (execID : String) (chunks : List (List Nat)) (exitCode : Int) :
    (exitCode = 0 →
      (Exec containerID cmd (.ok execID) (.ok chunks) none (.ok exitCode)).ret
        = .ok (byteListToString (runReads chunks).out))
    ∧ (exitCode ≠ 0 →
      (Exec containerID cmd (.ok execID) (.ok chunks) none (.ok exitCode)).ret
        = .error (execErrMsg exitCode (byteListToString (runReads chunks).err))) := by
  constructor
  · intro h
    subst h
    rfl
  · intro h
    simp [Exec, h]

/-- Witness for C4 at concrete inputs: exit code 0 with a stdout frame, and
exit code 7 with a stderr frame. -/
theorem exec_exit_code_contract_witness :
    (Exec "web" ["ls"] (.ok "e1") (.ok [[1, 0, 0, 0, 1, 65]]) none
      (.ok 0)).ret = .ok (byteListToString (runReads [[1, 0, 0, 0, 1, 65]]).out)
    ∧ (Exec "web" ["ls"] (.ok "e1") (.ok [[2, 0, 0, 0, 1, 66]]) none
      (.ok 7)).ret
        = .error (execErrMsg 7 (byteListToString (runReads [[2, 0, 0, 0, 1, 66]]).err)) :=
  ⟨(exec_exit_code_contract "web" ["ls"] "e1" [[1, 0, 0, 0, 1, 65]] 0).1 rfl,
    (exec_exit_code_contract "web" ["ls"] "e1" [[2, 0, 0, 0, 1, 66]] 7).2
      (by decide)⟩

/-! ## Error propagation across the core (claim C5) -/

/-- Claim C5 (counterexample): `GetContainerHealthStatus` hands the
underlying inspection error to its caller verbatim — the returned error is
exactly the engine's message, which carries neither the stable category
label nor the container identity. -/
theorem error_wrapping_counterexample :
    GetContainerHealthStatus "c1" (Except.error "boom")
      = some ("unhealthy", some "boom")
    ∧ ("[ERR:] [DOCKER]".data.isPrefixOf "boom".data) = false
    ∧ ("c1".data.isPrefixOf "boom".data) = false := by
  refine ⟨rfl, by decide, by decide⟩

/-- Claim C5 (amended): errors from `BuildImage`, `CreateContainer`,
`StartContainer`, `StopContainer`, `PurgeContainer` and `DeleteImage` are
wrapped with the stable label "[ERR:] [DOCKER] =>" and the offending
identifier (image tag or container identity); `Exec` and
`PruneDanglingImages` wrap with the same label but without the identifier;
`GetContainerHealthStatus` returns the underlying inspection error
unwrapped. -/
theorem error_wrapping_amended :
    (∀ (name e : String) (subE : Option String) (body : List BuildLogItem),
      (BuildImage name (some e) subE body).ret
        = some ("[ERR:] [DOCKER] => FAILED TO CREATE BUILD CONTEXT FOR IMAGE "
            ++ name ++ " => " ++ e))
    ∧ (∀ (name e : String) (body : List BuildLogItem),
      (BuildImage name none (some e) body).ret
        = some ("[ERR:] [DOCKER] => FAILED TO BUILD IMAGE " ++ name
            ++ " => " ++ e))
    ∧ (∀ (config : ContainerCreateConfig) (e : String),
      CreateContainer config (.error e)
        = .error ("[ERR:] [DOCKER] => FAILED TO CREATE CONTAINER "
            ++ config.Name ++ " => " ++ e))
    ∧ (∀ (cont : CreateResponse) (e : String),
      StartContainer cont (some e)
        = some ("[ERR:] [DOCKER] => FAILED TO START CONTAINER WITH ID: "
            ++ cont.ID ++ " => " ++ e))
    ∧ (∀ (cid e : String),
      StopContainer cid (some e)
        = some ("[ERR:] [DOCKER] => FAILED TO STOP CONTAINER WITH ID: "
            ++ cid ++ " => " ++ e))
    ∧ (∀ (cid e : String),
      PurgeContainer cid (fun _ => some e)
        = some ("[ERR:] [DOCKER] => FAILED TO PURGE CONTAINER WITH ID: "
            ++ cid ++ " => " ++ e))
    ∧ (∀ (name imgID e : String),
      (DeleteImage name (.ok imgID) (some e)).err
        = some ("[ERR:] [DOCKER] => FAILED TO DELETE IMAGE: " ++ name
            ++ " | => " ++ e))
    ∧ (∀ (e : String),
      PruneDanglingImages (.error e)
        = .error ("[ERR:] [DOCKER] => FAILED TO PRUNE DANGLING IMAGES  | => "
            ++ e))
    ∧ (∀ (cid : String) (cmd : List String) (e : String)
        (att : Except String (List (List Nat))) (cp : Option String)
        (ins : Except String Int),
      (Exec cid cmd (.error e) att cp ins).ret
        = .error ("[ERR:] [DOCKER] => FAILED TO CREATE EXEC ISNTANCE => " ++ e))
    ∧ (∀ (cid : String) (cmd : List String) (eid e : String)
        (cp : Option String) (ins : Except String Int),
      (Exec cid cmd (.ok eid) (.error e) cp ins).ret
        = .error ("[ERR:] [DOCKER] => FAILED TO ATTACH TO EXEC INSTANCE => "
            ++ e))
    ∧ (∀ (cid : String) (cmd : List String) (eid e : String)
        (chunks : List (List Nat)) (ins : Except String Int),
      (Exec cid cmd (.ok eid) (.ok chunks) (some e) ins).ret
        = .error ("[ERR:] [DOCKER] => FAILED TO COPY EXEC OUTPUT => " ++ e))
    ∧ (∀ (cid : String) (cmd : List String) (eid e : String)
        (chunks : List (List Nat)),
      (Exec cid cmd (.ok eid) (.ok chunks) none (.error e)).ret
        = .error ("[ERR:] [DOCKER] => FAILED TO INSPECT EXEC INSTANCE => "
            ++ e))
    ∧ (∀ (cid e : String),
      GetContainerHealthStatus cid (Except.error e)
        = some ("unhealthy", some e)) := by
  refine ⟨fun name e subE body => rfl, fun name e body => rfl,
    fun config e => rfl, fun cont e => rfl, fun cid e => rfl,
    fun cid e => rfl, fun name imgID e => rfl, fun e => rfl,
    fun cid cmd e att cp ins => rfl, fun cid cmd eid e cp ins => rfl,
    fun cid cmd eid e chunks ins => rfl, fun cid cmd eid e chunks => rfl,
    fun cid e => rfl⟩

end Containers
